import Mathlib

/-!
Verification of the HTTP client core of terraform-provider-zenfra
(package zenfraclient): the retry policy (`retryDelay`, `isRetryableStatus`,
`sleepWithContext`), the request executor (`doRequest`, `doJSON`), the error
classifier (`checkResponse` and the typed error hierarchy with its kind
predicates), and client construction (`NewClient`).

Durations are modelled as `Int` nanoseconds, matching Go's `time.Duration`
(an `int64` count of nanoseconds).  Where a server-controlled value can
overflow int64 — the `time.Duration(seconds) * time.Second` product of the
Retry-After path — the wraparound is modelled explicitly (`wrap64`); the
exponential-backoff path is left unwrapped, which is faithful for every
value reachable with the fixed base delay of 500ms and max delay of 30s.
HTTP transport and the random jitter are modelled as explicit oracles
passed to the functions that consume them.
-/

namespace Zenfra

/-- One second in nanoseconds (`time.Second`). -/
def second : Int := 1000000000

/-- One millisecond in nanoseconds (`time.Millisecond`). -/
def millisecond : Int := 1000000

/-- `defaultBaseDelay = 500 * time.Millisecond`. -/
def defaultBaseDelay : Int := 500 * millisecond

/-- `defaultMaxDelay = 30 * time.Second`. -/
def defaultMaxDelay : Int := 30 * second

/-- `defaultMaxRetries = 3`. -/
def defaultMaxRetries : Nat := 3

/-- `defaultTimeout = 30 * time.Second`. -/
def defaultTimeout : Int := 30 * second

/-- `defaultUserAgent` constant from the client. -/
def defaultUserAgent : String := "terraform-provider-zenfra/0.1.0"

/-- `retryConfig` from retry.go: retry parameters. -/
structure RetryConfig where
  baseDelay : Int
  maxDelay : Int
  maxRetries : Nat
deriving Repr, DecidableEq

/-- `defaultRetryConfig()`. -/
def defaultRetryConfig : RetryConfig :=
  { baseDelay := defaultBaseDelay
    maxDelay := defaultMaxDelay
    maxRetries := defaultMaxRetries }

/-- `isRetryableStatus`: true exactly for 429, 502, 503, 504. -/
def isRetryableStatus (statusCode : Nat) : Bool :=
  statusCode == 429 || statusCode == 502 || statusCode == 503 || statusCode == 504

/-- Result of `json.Unmarshal` of a non-2xx response body into the anonymous
error struct of `checkResponse` (fields `error`, `message`, `fields`).
`malformed` is an unmarshal failure; in `parsed`, absent members take Go's
zero values (empty string, nil map). -/
inductive ErrBody where
  | malformed
  | parsed (error : String) (message : String) (fields : Option (List (String × String)))
deriving Repr, DecidableEq

/-- An HTTP response as seen by the client core: status code, headers
(first-match lookup), and the error-body parse result. -/
structure Response where
  statusCode : Nat
  headers : List (String × String)
  body : ErrBody
deriving Repr, DecidableEq

/-- `resp.Header.Get(key)`: first value for the key, or "" when absent. -/
def headerGet (headers : List (String × String)) (key : String) : String :=
  match headers.find? (fun p => p.1 == key) with
  | some p => p.2
  | none => ""

/-- Go `strconv.Atoi`: optional sign followed by at least one decimal digit,
rejecting anything else and values outside the int64 range. -/
def atoi (s : String) : Option Int :=
  let core : Bool → List Char → Option Int := fun neg ds =>
    if ds.isEmpty || !ds.all Char.isDigit then none
    else
      let n : Nat := ds.foldl (fun a c => a * 10 + (c.toNat - 48)) 0
      let v : Int := if neg then -(n : Int) else (n : Int)
      if v < -(2 ^ 63) || v > 2 ^ 63 - 1 then none else some v
  match s.toList with
  | [] => none
  | '+' :: rest => core false rest
  | '-' :: rest => core true rest
  | l => core false l

/-- Go int64 two's-complement wraparound: the value an overflowing int64
multiplication actually produces. -/
def wrap64 (x : Int) : Int :=
  let m := x % (2 ^ 64)
  if m ≥ 2 ^ 63 then m - 2 ^ 64 else m

/-- `retryDelay(cfg, attempt, resp)` from retry.go, with the random draw
`rand.Int64N(int64(delay)/2)` passed in as the `jitter` oracle (any value in
`[0, delay/2)`).  For a 429 response whose Retry-After header parses as a
positive integer, the header is honored capped at the max delay — the
product `time.Duration(seconds) * time.Second` is an int64 multiplication
and wraps for seconds ≥ 9223372037, modelled by `wrap64`.  Otherwise
exponential backoff `baseDelay * 2^attempt` capped at the max delay, then
`delay/2 + delay/4 + jitter`. -/
def retryDelay (cfg : RetryConfig) (attempt : Nat) (resp : Option Response)
    (jitter : Int) : Int :=
  let backoff : Int :=
    let d0 := cfg.baseDelay * 2 ^ attempt
    let d := if d0 > cfg.maxDelay then cfg.maxDelay else d0
    d / 2 + d / 4 + jitter
  match resp with
  | none => backoff
  | some r =>
    if r.statusCode == 429 then
      let retryAfter := headerGet r.headers "Retry-After"
      if retryAfter != "" then
        match atoi retryAfter with
        | some seconds =>
          if seconds > 0 then
            let d := wrap64 (seconds * second)
            if d > cfg.maxDelay then cfg.maxDelay else d
          else backoff
        | none => backoff
      else backoff
    else backoff

/-- The upper bound of the random draw in `retryDelay`'s backoff path:
`rand.Int64N(int64(delay)/2)` returns a value in `[0, delay/2)` where
`delay` is the capped pre-jitter backoff delay. -/
def jitterBound (cfg : RetryConfig) (attempt : Nat) : Int :=
  let d0 := cfg.baseDelay * 2 ^ attempt
  let d := if d0 > cfg.maxDelay then cfg.maxDelay else d0
  d / 2

/-- `APIError`'s shared fields from errors.go: status code, message,
request-correlation id. -/
structure APIErr where
  statusCode : Nat
  message : String
  requestID : String
deriving Repr, DecidableEq

/-- The typed errors the client core can return (errors.go plus the
transport/cancellation errors of client.go): one variant per subtype of
`APIError`, plus a wrapped transport error (`executing request: ...`) and a
context cancellation error (`ctx.Err()`). -/
inductive GoError where
  | notFoundError (e : APIErr)
  | conflictError (e : APIErr)
  | unauthorizedError (e : APIErr)
  | forbiddenError (e : APIErr)
  | validationError (e : APIErr) (fields : Option (List (String × String)))
  | apiError (e : APIErr)
  | transportError (msg : String)
  | ctxError (msg : String)
deriving Repr, DecidableEq

/-- `IsNotFound` (errors.go): `errors.As` against `*NotFoundError`; on the
errors this core produces, true exactly for the not-found variant. -/
def IsNotFound : GoError → Bool
  | .notFoundError _ => true
  | _ => false

/-- `IsConflict` (errors.go). -/
def IsConflict : GoError → Bool
  | .conflictError _ => true
  | _ => false

/-- `IsUnauthorized` (errors.go). -/
def IsUnauthorized : GoError → Bool
  | .unauthorizedError _ => true
  | _ => false

/-- `IsForbidden` (errors.go). -/
def IsForbidden : GoError → Bool
  | .forbiddenError _ => true
  | _ => false

/-- The `APIErr` carried by each typed error variant (none for the
transport/cancellation variants, which carry only a message). -/
def GoError.apiErr : GoError → Option APIErr
  | .notFoundError e => some e
  | .conflictError e => some e
  | .unauthorizedError e => some e
  | .forbiddenError e => some e
  | .validationError e _ => some e
  | .apiError e => some e
  | .transportError _ => none
  | .ctxError _ => none

/-- Go `http.StatusText`: the complete table of standard IANA reason
phrases, "" for a code it does not define. -/
def statusText (code : Nat) : String :=
  if code == 100 then "Continue"
  else if code == 101 then "Switching Protocols"
  else if code == 102 then "Processing"
  else if code == 103 then "Early Hints"
  else if code == 200 then "OK"
  else if code == 201 then "Created"
  else if code == 202 then "Accepted"
  else if code == 203 then "Non-Authoritative Information"
  else if code == 204 then "No Content"
  else if code == 205 then "Reset Content"
  else if code == 206 then "Partial Content"
  else if code == 207 then "Multi-Status"
  else if code == 208 then "Already Reported"
  else if code == 226 then "IM Used"
  else if code == 300 then "Multiple Choices"
  else if code == 301 then "Moved Permanently"
  else if code == 302 then "Found"
  else if code == 303 then "See Other"
  else if code == 304 then "Not Modified"
  else if code == 305 then "Use Proxy"
  else if code == 307 then "Temporary Redirect"
  else if code == 308 then "Permanent Redirect"
  else if code == 400 then "Bad Request"
  else if code == 401 then "Unauthorized"
  else if code == 402 then "Payment Required"
  else if code == 403 then "Forbidden"
  else if code == 404 then "Not Found"
  else if code == 405 then "Method Not Allowed"
  else if code == 406 then "Not Acceptable"
  else if code == 407 then "Proxy Authentication Required"
  else if code == 408 then "Request Timeout"
  else if code == 409 then "Conflict"
  else if code == 410 then "Gone"
  else if code == 411 then "Length Required"
  else if code == 412 then "Precondition Failed"
  else if code == 413 then "Request Entity Too Large"
  else if code == 414 then "Request URI Too Long"
  else if code == 415 then "Unsupported Media Type"
  else if code == 416 then "Requested Range Not Satisfiable"
  else if code == 417 then "Expectation Failed"
  else if code == 418 then "I\x27m a teapot"
  else if code == 421 then "Misdirected Request"
  else if code == 422 then "Unprocessable Entity"
  else if code == 423 then "Locked"
  else if code == 424 then "Failed Dependency"
  else if code == 425 then "Too Early"
  else if code == 426 then "Upgrade Required"
  else if code == 428 then "Precondition Required"
  else if code == 429 then "Too Many Requests"
  else if code == 431 then "Request Header Fields Too Large"
  else if code == 451 then "Unavailable For Legal Reasons"
  else if code == 500 then "Internal Server Error"
  else if code == 501 then "Not Implemented"
  else if code == 502 then "Bad Gateway"
  else if code == 503 then "Service Unavailable"
  else if code == 504 then "Gateway Timeout"
  else if code == 505 then "HTTP Version Not Supported"
  else if code == 506 then "Variant Also Negotiates"
  else if code == 507 then "Insufficient Storage"
  else if code == 508 then "Loop Detected"
  else if code == 510 then "Not Extended"
  else if code == 511 then "Network Authentication Required"
  else ""

/-- `errBody.Error`: the `error` member of the parsed body (Go zero value
"" on unmarshal failure or absence). -/
def ErrBody.errorField : ErrBody → String
  | .malformed => ""
  | .parsed e _ _ => e

/-- `errBody.Message` (Go zero value "" on unmarshal failure or absence). -/
def ErrBody.messageField : ErrBody → String
  | .malformed => ""
  | .parsed _ m _ => m

/-- `errBody.Fields` (Go zero value nil on unmarshal failure or absence). -/
def ErrBody.fieldsValue : ErrBody → Option (List (String × String))
  | .malformed => none
  | .parsed _ _ f => f

/-- `checkResponse` (client.go): `none` for 2xx; otherwise builds an
`APIError` with the request id from the X-Request-ID header and a message
chosen by precedence (body `message`, then body `error`, then
`http.StatusText`), and wraps it in the variant selected by the status
switch (404, 409, 401, 403, 400/422, default). -/
def checkResponse (resp : Response) : Option GoError :=
  if 200 ≤ resp.statusCode ∧ resp.statusCode < 300 then none
  else
    let msg0 : String :=
      if resp.body.messageField != "" then resp.body.messageField
      else if resp.body.errorField != "" then resp.body.errorField
      else ""
    let msg : String := if msg0 == "" then statusText resp.statusCode else msg0
    let apiErr : APIErr :=
      { statusCode := resp.statusCode
        message := msg
        requestID := headerGet resp.headers "X-Request-ID" }
    some (if resp.statusCode == 404 then .notFoundError apiErr
      else if resp.statusCode == 409 then .conflictError apiErr
      else if resp.statusCode == 401 then .unauthorizedError apiErr
      else if resp.statusCode == 403 then .forbiddenError apiErr
      else if resp.statusCode == 400 || resp.statusCode == 422 then
        .validationError apiErr resp.body.fieldsValue
      else .apiError apiErr)

/-- Go `strings.TrimRight(s, "/")`: remove every trailing slash. -/
def trimRightSlash (s : String) : String :=
  String.mk ((s.data.reverse.dropWhile (fun c => c == '/')).reverse)

/-- `ClientConfig` (client.go).  `maxRetries` is a Go `int`, so it may be
zero or negative. -/
structure ClientConfig where
  endpoint : String
  apiToken : String
  userAgent : String
  timeout : Int
  maxRetries : Int
deriving Repr, DecidableEq

/-- `Client` (client.go): immutable state set up by `NewClient`.  The
`http.Client` is represented by its timeout. -/
structure Client where
  baseURL : String
  apiToken : String
  userAgent : String
  timeout : Int
  retry : RetryConfig
deriving Repr, DecidableEq

/-- `NewClient` (client.go): requires endpoint and token, defaults the
user-agent, timeout, and retry budget, and stores the endpoint with
trailing slashes trimmed. -/
def NewClient (cfg : ClientConfig) : Except String Client :=
  if cfg.endpoint == "" then .error "endpoint is required"
  else if cfg.apiToken == "" then .error "api_token is required"
  else
    let userAgent := if cfg.userAgent == "" then defaultUserAgent else cfg.userAgent
    let timeout := if cfg.timeout == 0 then defaultTimeout else cfg.timeout
    let retryCfg :=
      if cfg.maxRetries > 0 then
        { defaultRetryConfig with maxRetries := cfg.maxRetries.toNat }
      else defaultRetryConfig
    .ok
      { baseURL := trimRightSlash cfg.endpoint
        apiToken := cfg.apiToken
        userAgent := userAgent
        timeout := timeout
        retry := retryCfg }

/-- `url := c.baseURL + path` (client.go line 148). -/
def requestURL (c : Client) (path : String) : String :=
  c.baseURL ++ path

/-- Result of one transport attempt (`c.httpClient.Do`): a network error or
an HTTP response. -/
inductive TransportResult where
  | netErr (msg : String)
  | ok (r : Response)
deriving Repr, DecidableEq

/-- The environment of one `doRequest` call: the server's response to each
attempt, the caller's context (whether `ctx.Done()` fires during the wait
after attempt i, whether `ctx.Err()` is non-nil when checked after a
transport failure of attempt i, and the value of `ctx.Err()`), and the
random jitter drawn for the wait after attempt i. -/
structure World where
  transport : Nat → TransportResult
  ctxDoneDuringWait : Nat → Bool
  ctxErrAtAttempt : Nat → Bool
  ctxErrMsg : String
  jitter : Nat → Int

/-- `sleepWithContext` (retry.go): selects between the context's done
channel and a timer; returns `ctx.Err()` when cancellation fires during the
wait, nil otherwise.  Whether cancellation fires is the oracle `ctxDone`. -/
def sleepWithContext (ctxDone : Bool) (ctxErrMsg : String) (_d : Int) :
    Option String :=
  if ctxDone then some ctxErrMsg else none

/-- Outcome of `doRequest`, together with the number of HTTP requests
actually issued. -/
inductive DoResult where
  | ok (r : Response) (attempts : Nat)
  | err (e : GoError) (attempts : Nat)
deriving Repr, DecidableEq

/-- The message of the terminal error `doRequest` synthesizes when all
attempts are exhausted on retryable statuses. -/
def exhaustedMsg (maxRetries lastStatus : Nat) : String :=
  "request failed after " ++ toString maxRetries ++ " retries with status "
    ++ toString lastStatus

/-- The retry loop of `doRequest` (client.go lines 153-213), recursing on
the remaining loop iterations (`fuel`); entered with
`fuel = maxRetries + 1` and `attempt = 0`.  Body marshaling is abstracted
(assumed to succeed; none of the modelled behaviour depends on the request
body).  On a transport failure: fail if the context is already cancelled,
retry after a cancellable sleep while budget remains, else return the
wrapped transport error.  On a response: return it unless its status is
retryable; otherwise remember it, sleep (cancellably) if budget remains,
and continue.  When the loop ends with a remembered retryable response the
synthesized terminal `APIError` is returned. -/
def doRequestLoop (c : Client) (w : World) :
    Nat → Nat → Option Response → Option GoError → DoResult
  | 0, attempt, lastResp, lastErr =>
    match lastResp with
    | some r =>
      .err (.apiError
        { statusCode := r.statusCode
          message := exhaustedMsg c.retry.maxRetries r.statusCode
          requestID := "" }) attempt
    | none =>
      -- Go returns (nil, lastErr) here; from the `doRequest` entry point
      -- this branch is reached only with lastErr set (via net errors).
      .err (lastErr.getD (.transportError "")) attempt
  | fuel + 1, attempt, lastResp, lastErr =>
    match w.transport attempt with
    | .netErr m =>
      let e := GoError.transportError ("executing request: " ++ m)
      if w.ctxErrAtAttempt attempt then .err e (attempt + 1)
      else if attempt < c.retry.maxRetries then
        match sleepWithContext (w.ctxDoneDuringWait attempt) w.ctxErrMsg
            (retryDelay c.retry attempt none (w.jitter attempt)) with
        | some sleepErr => .err (.ctxError sleepErr) (attempt + 1)
        | none => doRequestLoop c w fuel (attempt + 1) lastResp (some e)
      else .err e (attempt + 1)
    | .ok r =>
      if !(isRetryableStatus r.statusCode) then .ok r (attempt + 1)
      else if attempt < c.retry.maxRetries then
        match sleepWithContext (w.ctxDoneDuringWait attempt) w.ctxErrMsg
            (retryDelay c.retry attempt (some r) (w.jitter attempt)) with
        | some sleepErr => .err (.ctxError sleepErr) (attempt + 1)
        | none => doRequestLoop c w fuel (attempt + 1) (some r) lastErr
      else doRequestLoop c w fuel (attempt + 1) (some r) lastErr

/-- `doRequest` (client.go): run the retry loop over all
`maxRetries + 1` iterations. -/
def doRequest (c : Client) (w : World) : DoResult :=
  doRequestLoop c w (c.retry.maxRetries + 1) 0 none none

/-- Outcome of `doJSON`: the successful response (decoding of the success
payload into the caller's result shape is abstracted as returning the
response itself) or the typed error, with the number of requests issued. -/
inductive JSONResult where
  | ok (r : Response) (attempts : Nat)
  | err (e : GoError) (attempts : Nat)
deriving Repr, DecidableEq

/-- `doJSON` (client.go): execute `doRequest`, then classify the response
via `checkResponse`; a 2xx response is returned as the payload. -/
def doJSON (c : Client) (w : World) : JSONResult :=
  match doRequest c w with
  | .ok r n =>
    match checkResponse r with
    | some e => .err e n
    | none => .ok r n
  | .err e n => .err e n

/-- The error kinds of the spec's taxonomy (section 7). -/
inductive ErrKind where
  | notFound
  | conflict
  | unauthorized
  | forbidden
  | validation
  | genericAPI
  | transportOrCancel
deriving Repr, DecidableEq

/-- The kind of a typed error value. -/
def GoError.kind : GoError → ErrKind
  | .notFoundError _ => .notFound
  | .conflictError _ => .conflict
  | .unauthorizedError _ => .unauthorized
  | .forbiddenError _ => .forbidden
  | .validationError _ _ => .validation
  | .apiError _ => .genericAPI
  | .transportError _ => .transportOrCancel
  | .ctxError _ => .transportOrCancel

/-- Status-to-kind mapping written from the spec's words (section 4.3 /
section 7): 404 not-found, 409 conflict, 401 unauthorized, 403 forbidden,
400 or 422 validation, any other non-2xx the generic API error.  Compared
against the error `checkResponse` produces. -/
def specKindForStatus (s : Nat) : ErrKind :=
  if s = 404 then .notFound
  else if s = 409 then .conflict
  else if s = 401 then .unauthorized
  else if s = 403 then .forbidden
  else if s = 400 ∨ s = 422 then .validation
  else .genericAPI

/-- Message precedence written from the spec's words (section 4.3): the
JSON `message` member if present and non-empty, else the `error` member if
present and non-empty, else the standard HTTP status text; a body that
fails to parse also falls back to the status text.  Compared against the
message of the error `checkResponse` produces. -/
def specErrorMessage (body : ErrBody) (statusCode : Nat) : String :=
  match body with
  | .malformed => statusText statusCode
  | .parsed e m _ =>
    if m ≠ "" then m
    else if e ≠ "" then e
    else statusText statusCode

/-- The 422 response of the spec's validation-error parsing example: body
with members error = "validation_error", message = "name is required",
fields mapping "name" to "required". -/
def resp422Example : Response :=
  { statusCode := 422
    headers := []
    body := .parsed "validation_error" "name is required" (some [("name", "required")]) }

/-! ## Helper lemmas -/

/-- `dropWhile` is idempotent. -/
theorem dropWhile_dropWhile (p : Char → Bool) (l : List Char) :
    List.dropWhile p (List.dropWhile p l) = List.dropWhile p l := by
  induction l with
  | nil => rfl
  | cons x xs ih =>
    by_cases h : p x
    · simpa [List.dropWhile_cons, h] using ih
    · simp [List.dropWhile_cons, h]

/-- A value already representable as a non-negative int64 is unchanged by
wraparound. -/
theorem wrap64_eq_self (x : Int) (h0 : 0 ≤ x) (h1 : x ≤ 2 ^ 63 - 1) :
    wrap64 x = x := by
  unfold wrap64
  rw [Int.emod_eq_of_lt h0 (by omega)]
  rw [if_neg (by omega)]

/-- A 2xx status is never in the retryable set. -/
theorem isRetryableStatus_eq_false_of_2xx (s : Nat) (h2 : 200 ≤ s ∧ s < 300) :
    isRetryableStatus s = false := by
  simp only [isRetryableStatus, Bool.or_eq_false_iff, beq_eq_false_iff_ne, ne_eq]
  omega

/-- The message `checkResponse` computes equals the precedence the spec
states. -/
theorem message_precedence_eq (b : ErrBody) (s : Nat) :
    (if (if b.messageField != "" then b.messageField
         else if b.errorField != "" then b.errorField else "") == ""
     then statusText s
     else if b.messageField != "" then b.messageField
       else if b.errorField != "" then b.errorField else "")
    = specErrorMessage b s := by
  cases b with
  | malformed => simp [ErrBody.messageField, ErrBody.errorField, specErrorMessage]
  | parsed eF mF fF =>
    simp only [ErrBody.messageField, ErrBody.errorField, specErrorMessage]
    by_cases hm : mF = "" <;> by_cases heF : eF = "" <;>
      simp [hm, heF]

/-- `checkResponse` on a non-2xx response: characterization of the variant
(kind), the kind predicates, and the validation payload.  Shared engine of
the classification claims. -/
theorem checkResponse_classify (r : Response)
    (h : ¬(200 ≤ r.statusCode ∧ r.statusCode < 300)) :
    ∃ e, checkResponse r = some e ∧
      GoError.kind e = specKindForStatus r.statusCode ∧
      (IsNotFound e = true ↔ r.statusCode = 404) ∧
      (IsConflict e = true ↔ r.statusCode = 409) ∧
      (IsUnauthorized e = true ↔ r.statusCode = 401) ∧
      (IsForbidden e = true ↔ r.statusCode = 403) ∧
      (r.statusCode = 400 ∨ r.statusCode = 422 →
        ∃ a, e = .validationError a r.body.fieldsValue) := by
  unfold checkResponse
  rw [if_neg h]
  refine ⟨_, rfl, ?_⟩
  by_cases h404 : r.statusCode = 404 <;>
    by_cases h409 : r.statusCode = 409 <;>
      by_cases h401 : r.statusCode = 401 <;>
        by_cases h403 : r.statusCode = 403 <;>
          by_cases h400 : r.statusCode = 400 <;>
            by_cases h422 : r.statusCode = 422 <;>
              simp_all [GoError.kind, specKindForStatus, IsNotFound,
                IsConflict, IsUnauthorized, IsForbidden]

/-- `checkResponse` on a non-2xx response always carries an `APIErr` whose
status is the response's, whose message follows the spec's precedence, and
whose request id comes from the X-Request-ID header. -/
theorem checkResponse_apiErr_eq (r : Response)
    (h : ¬(200 ≤ r.statusCode ∧ r.statusCode < 300)) :
    ∃ e, checkResponse r = some e ∧
      GoError.apiErr e = some
        { statusCode := r.statusCode
          message := specErrorMessage r.body r.statusCode
          requestID := headerGet r.headers "X-Request-ID" } := by
  unfold checkResponse
  rw [if_neg h]
  simp only [message_precedence_eq]
  refine ⟨_, rfl, ?_⟩
  split_ifs <;> rfl

/-- Retry-loop engine, success case: if every attempt in
`[attempt, attempt + m)` draws a retryable-status response, no wait is
cancelled, and attempt `attempt + m` draws a non-retryable response `r`,
the loop returns `r` after exactly `m + 1` further requests. -/
theorem doRequestLoop_success (c : Client) (w : World) (r : Response) :
    ∀ (m attempt fuel : Nat) (lastResp : Option Response)
      (lastErr : Option GoError),
    attempt + fuel = c.retry.maxRetries + 1 →
    m < fuel →
    (∀ j, attempt ≤ j → j < attempt + m →
      ∃ rj, w.transport j = .ok rj ∧ isRetryableStatus rj.statusCode = true) →
    (∀ j, w.ctxDoneDuringWait j = false) →
    w.transport (attempt + m) = .ok r →
    isRetryableStatus r.statusCode = false →
    doRequestLoop c w fuel attempt lastResp lastErr = .ok r (attempt + m + 1) := by
  intro m
  induction m with
  | zero =>
    intro attempt fuel lastResp lastErr hinv hm _hretry hctx htr hnr
    obtain ⟨f, rfl⟩ : ∃ f, fuel = f + 1 := ⟨fuel - 1, by omega⟩
    rw [Nat.add_zero] at htr
    simp only [doRequestLoop, htr, hnr, Bool.not_false, if_true]
  | succ k ih =>
    intro attempt fuel lastResp lastErr hinv hm hretry hctx htr hnr
    obtain ⟨f, rfl⟩ : ∃ f, fuel = f + 1 := ⟨fuel - 1, by omega⟩
    obtain ⟨r0, htr0, hret0⟩ := hretry attempt le_rfl (by omega)
    have hlt : attempt < c.retry.maxRetries := by omega
    have harith : attempt + 1 + k = attempt + (k + 1) := by omega
    have hrec := ih (attempt + 1) f (some r0) lastErr (by omega) (by omega)
      (fun j hj1 hj2 => hretry j (by omega) (by omega)) hctx
      (by rw [harith]; exact htr) hnr
    simp only [doRequestLoop, htr0, hret0, Bool.not_true, if_false,
      if_pos hlt, sleepWithContext, hctx attempt, Bool.false_eq_true, hrec]
    congr 1
    omega

/-- Retry-loop engine, exhaustion case: if every remaining attempt draws a
retryable-status response and no wait is cancelled, the loop runs out of
budget and synthesizes the terminal `APIError` from the last response. -/
theorem doRequestLoop_exhaust (c : Client) (w : World) (r : Response) :
    ∀ (fuel attempt : Nat) (lastResp : Option Response)
      (lastErr : Option GoError),
    attempt + fuel = c.retry.maxRetries + 1 →
    1 ≤ fuel →
    (∀ j, attempt ≤ j → j ≤ c.retry.maxRetries →
      ∃ rj, w.transport j = .ok rj ∧ isRetryableStatus rj.statusCode = true) →
    (∀ j, w.ctxDoneDuringWait j = false) →
    w.transport c.retry.maxRetries = .ok r →
    doRequestLoop c w fuel attempt lastResp lastErr
      = .err (.apiError
          { statusCode := r.statusCode
            message := exhaustedMsg c.retry.maxRetries r.statusCode
            requestID := "" }) (c.retry.maxRetries + 1) := by
  intro fuel
  induction fuel with
  | zero => intro attempt lastResp lastErr _ h1; omega
  | succ f ih =>
    intro attempt lastResp lastErr hinv _h1 hretry hctx hlast
    obtain ⟨r0, htr0, hret0⟩ := hretry attempt le_rfl (by omega)
    cases f with
    | zero =>
      have hatt : attempt = c.retry.maxRetries := by omega
      subst hatt
      have hr0 : r0 = r := by
        rw [hlast] at htr0
        exact (TransportResult.ok.inj htr0).symm
      subst hr0
      simp only [doRequestLoop, htr0, hret0, Bool.not_true,
        Bool.false_eq_true, if_false, lt_irrefl, ite_false]
    | succ f2 =>
      have hlt : attempt < c.retry.maxRetries := by omega
      have hrec := ih (attempt + 1) (some r0) lastErr (by omega) (by omega)
        (fun j hj1 hj2 => hretry j (by omega) hj2) hctx hlast
      set g := f2 + 1 with hg
      clear_value g
      simp only [doRequestLoop, htr0, hret0, Bool.not_true,
        Bool.false_eq_true, if_false, if_pos hlt, sleepWithContext,
        hctx attempt, hrec]

/-- Retry-loop engine, cancellation case: if the attempts in
`[attempt, attempt + m]` draw retryable-status responses, the waits before
`attempt + m` are not cancelled but the wait after attempt `attempt + m`
is (with budget remaining), the loop returns the context's error after
`m + 1` further requests. -/
theorem doRequestLoop_cancel (c : Client) (w : World) :
    ∀ (m attempt fuel : Nat) (lastResp : Option Response)
      (lastErr : Option GoError),
    attempt + fuel = c.retry.maxRetries + 1 →
    attempt + m < c.retry.maxRetries →
    (∀ j, attempt ≤ j → j ≤ attempt + m →
      ∃ rj, w.transport j = .ok rj ∧ isRetryableStatus rj.statusCode = true) →
    (∀ j, attempt ≤ j → j < attempt + m → w.ctxDoneDuringWait j = false) →
    w.ctxDoneDuringWait (attempt + m) = true →
    doRequestLoop c w fuel attempt lastResp lastErr
      = .err (.ctxError w.ctxErrMsg) (attempt + m + 1) := by
  intro m
  induction m with
  | zero =>
    intro attempt fuel lastResp lastErr hinv hm hretry _hctx hcancel
    obtain ⟨f, rfl⟩ : ∃ f, fuel = f + 1 := ⟨fuel - 1, by omega⟩
    obtain ⟨r0, htr0, hret0⟩ := hretry attempt le_rfl le_rfl
    rw [Nat.add_zero] at hcancel hm
    simp [doRequestLoop, htr0, hret0, if_pos hm, sleepWithContext, hcancel]
  | succ k ih =>
    intro attempt fuel lastResp lastErr hinv hm hretry hctx hcancel
    obtain ⟨f, rfl⟩ : ∃ f, fuel = f + 1 := ⟨fuel - 1, by omega⟩
    obtain ⟨r0, htr0, hret0⟩ := hretry attempt le_rfl (by omega)
    have hlt : attempt < c.retry.maxRetries := by omega
    have harith : attempt + 1 + k = attempt + (k + 1) := by omega
    have hrec := ih (attempt + 1) f (some r0) lastErr (by omega) (by omega)
      (fun j hj1 hj2 => hretry j (by omega) (by omega))
      (fun j hj1 hj2 => hctx j (by omega) (by omega))
      (by rw [harith]; exact hcancel)
    simp only [doRequestLoop, htr0, hret0, Bool.not_true, if_false,
      if_pos hlt, sleepWithContext, hctx attempt le_rfl (by omega),
      Bool.false_eq_true, hrec]
    congr 1
    omega

/-! ## Concrete material for witnesses -/

/-- A 200 response. -/
def resp200 : Response := { statusCode := 200, headers := [], body := .malformed }

/-- A 503 response. -/
def resp503 : Response := { statusCode := 503, headers := [], body := .malformed }

/-- A 404 response. -/
def resp404 : Response := { statusCode := 404, headers := [], body := .malformed }

/-- A client with the default retry configuration. -/
def sampleClient : Client :=
  { baseURL := "https://api.example.com"
    apiToken := "token"
    userAgent := defaultUserAgent
    timeout := defaultTimeout
    retry := defaultRetryConfig }

/-- A world with the given transport and a context that never cancels. -/
def quietCtxWorld (transport : Nat → TransportResult) : World :=
  { transport := transport
    ctxDoneDuringWait := fun _ => false
    ctxErrAtAttempt := fun _ => false
    ctxErrMsg := "context canceled"
    jitter := fun _ => 0 }

/-- A server returning 503 on attempts before `k - 1` and 200 from then. -/
def succeedAtWorld (k : Nat) : World :=
  quietCtxWorld (fun i => if i + 1 < k then .ok resp503 else .ok resp200)

/-- A server always returning 404. -/
def failFastWorld : World := quietCtxWorld (fun _ => .ok resp404)

/-- A server always returning 503. -/
def always503World : World := quietCtxWorld (fun _ => .ok resp503)

/-- A server always returning 503, with the caller's context cancelling
during wait `i`. -/
def cancelAtWorld (i : Nat) : World :=
  { transport := fun _ => .ok resp503
    ctxDoneDuringWait := fun j => j == i
    ctxErrAtAttempt := fun _ => false
    ctxErrMsg := "context canceled"
    jitter := fun _ => 0 }

/-! ## Claims -/

/-- C1: the claim states that the jittered exponential-backoff delay never
exceeds the configured max delay, for every possible value of the random
jitter term.  The code violates this: with the default retry configuration
(base 500ms, max 30s) at attempt 7, the pre-jitter delay is capped at 30s,
the random draw is taken from [0s, 15s), and a legal draw of 8s produces
a final delay of 15s + 7.5s + 8s = 30.5s, which exceeds the 30s max. -/
theorem retryDelay_exceeds_maxDelay_at_attempt7 :
    0 ≤ (8000000000 : Int) ∧
    (8000000000 : Int) < jitterBound defaultRetryConfig 7 ∧
    defaultRetryConfig.maxDelay <
      retryDelay defaultRetryConfig 7 none 8000000000 := by
  refine ⟨by decide, by decide, by decide⟩

/-- C2: if the first k-1 responses all carry a retryable status and the
k-th is 2xx, with k at most maxRetries + 1 and the context never
cancelling, `doRequest` and `doJSON` return the k-th response's payload
successfully and issue exactly k HTTP requests. -/
theorem doRequest_succeeds_on_attempt_k (c : Client) (w : World)
    (k : Nat) (r : Response)
    (hk1 : 1 ≤ k) (hk : k ≤ c.retry.maxRetries + 1)
    (hretry : ∀ j, j + 1 < k →
      ∃ rj, w.transport j = .ok rj ∧ isRetryableStatus rj.statusCode = true)
    (hr : w.transport (k - 1) = .ok r)
    (h2xx : 200 ≤ r.statusCode ∧ r.statusCode < 300)
    (hctx : ∀ j, w.ctxDoneDuringWait j = false) :
    doRequest c w = .ok r k ∧ doJSON c w = .ok r k := by
  have hnr := isRetryableStatus_eq_false_of_2xx r.statusCode h2xx
  have hmain := doRequestLoop_success c w r (k - 1) 0 (c.retry.maxRetries + 1)
    none none (by omega) (by omega)
    (fun j hj1 hj2 => hretry j (by omega)) hctx (by simpa using hr) hnr
  have h1 : doRequest c w = .ok r k := by
    unfold doRequest
    rw [hmain]
    congr 1
    omega
  have hcheck : checkResponse r = none := by
    unfold checkResponse
    rw [if_pos h2xx]
  refine ⟨h1, ?_⟩
  unfold doJSON
  rw [h1]
  simp [hcheck]

/-- C2 witness: success on the third attempt after two 503s. -/
theorem doRequest_succeeds_on_attempt_k_witness :
    doRequest sampleClient (succeedAtWorld 3) = .ok resp200 3 ∧
    doJSON sampleClient (succeedAtWorld 3) = .ok resp200 3 :=
  doRequest_succeeds_on_attempt_k sampleClient (succeedAtWorld 3) 3 resp200
    (by decide) (by decide)
    (fun j hj => ⟨resp503, by
        simp only [succeedAtWorld, quietCtxWorld]
        rw [if_pos hj], by decide⟩)
    (by decide) (by decide) (fun j => rfl)

/-- C3: a first response with a non-retryable non-2xx status ends the call
after exactly one HTTP request, and `doJSON` returns the typed error of
the kind corresponding to that status. -/
theorem doRequest_fail_fast_non_retryable (c : Client) (w : World)
    (r : Response)
    (hr : w.transport 0 = .ok r)
    (hnr : isRetryableStatus r.statusCode = false)
    (hn2 : ¬(200 ≤ r.statusCode ∧ r.statusCode < 300)) :
    doRequest c w = .ok r 1 ∧
    ∃ e, doJSON c w = .err e 1 ∧ checkResponse r = some e ∧
      GoError.kind e = specKindForStatus r.statusCode := by
  have h1 : doRequest c w = .ok r 1 := by
    unfold doRequest
    simp only [doRequestLoop, hr, hnr, Bool.not_false, if_true]
  obtain ⟨e, hce, hkind, -⟩ := checkResponse_classify r hn2
  refine ⟨h1, e, ?_, hce, hkind⟩
  unfold doJSON
  rw [h1]
  simp [hce]

/-- C3 witness: a 404 on the first attempt. -/
theorem doRequest_fail_fast_non_retryable_witness :
    doRequest sampleClient failFastWorld = .ok resp404 1 ∧
    ∃ e, doJSON sampleClient failFastWorld = .err e 1 ∧
      checkResponse resp404 = some e ∧
      GoError.kind e = specKindForStatus resp404.statusCode :=
  doRequest_fail_fast_non_retryable sampleClient failFastWorld resp404
    rfl (by decide) (by decide)

/-- C4: if every response carries a retryable status and the context never
cancels, `doRequest` makes exactly maxRetries + 1 attempts and returns a
terminal error reporting the retry count and the last observed status in
the message "request failed after N retries with status S". -/
theorem doRequest_exhausts_retries (c : Client) (w : World) (r : Response)
    (hretry : ∀ j, j ≤ c.retry.maxRetries →
      ∃ rj, w.transport j = .ok rj ∧ isRetryableStatus rj.statusCode = true)
    (hctx : ∀ j, w.ctxDoneDuringWait j = false)
    (hlast : w.transport c.retry.maxRetries = .ok r) :
    doRequest c w
      = .err (.apiError
          { statusCode := r.statusCode
            message := exhaustedMsg c.retry.maxRetries r.statusCode
            requestID := "" }) (c.retry.maxRetries + 1) ∧
    exhaustedMsg c.retry.maxRetries r.statusCode
      = "request failed after " ++ toString c.retry.maxRetries
        ++ " retries with status " ++ toString r.statusCode := by
  refine ⟨?_, rfl⟩
  unfold doRequest
  exact doRequestLoop_exhaust c w r (c.retry.maxRetries + 1) 0 none none
    (by omega) (by omega) (fun j hj1 hj2 => hretry j hj2) hctx hlast

/-- C4 witness: a server that always answers 503 under the default budget
of 3 retries. -/
theorem doRequest_exhausts_retries_witness :
    doRequest sampleClient always503World
      = .err (.apiError
          { statusCode := resp503.statusCode
            message := exhaustedMsg sampleClient.retry.maxRetries
              resp503.statusCode
            requestID := "" }) (sampleClient.retry.maxRetries + 1) ∧
    exhaustedMsg sampleClient.retry.maxRetries resp503.statusCode
      = "request failed after " ++ toString sampleClient.retry.maxRetries
        ++ " retries with status " ++ toString resp503.statusCode :=
  doRequest_exhausts_retries sampleClient always503World resp503
    (fun j hj => ⟨resp503, rfl, by decide⟩) (fun j => rfl) rfl

/-- C8: if the caller's context cancels during the inter-retry wait after
attempt i (budget remaining, all statuses so far retryable), the wait
aborts and the call returns the context's error, with only i + 1 of the
maxRetries + 1 possible attempts made. -/
theorem doRequest_cancelled_during_wait (c : Client) (w : World) (i : Nat)
    (hi : i < c.retry.maxRetries)
    (hresp : ∀ j, j ≤ i →
      ∃ rj, w.transport j = .ok rj ∧ isRetryableStatus rj.statusCode = true)
    (hbefore : ∀ j, j < i → w.ctxDoneDuringWait j = false)
    (hcancel : w.ctxDoneDuringWait i = true) :
    doRequest c w = .err (.ctxError w.ctxErrMsg) (i + 1) ∧
    i + 1 < c.retry.maxRetries + 1 := by
  refine ⟨?_, by omega⟩
  unfold doRequest
  have hmain := doRequestLoop_cancel c w i 0 (c.retry.maxRetries + 1)
    none none (by omega) (by simpa using hi)
    (fun j hj1 hj2 => hresp j (by omega))
    (fun j hj1 hj2 => hbefore j (by omega)) (by simpa using hcancel)
  simpa using hmain

/-- C8 witness: cancellation during the second wait of an all-503 run. -/
theorem doRequest_cancelled_during_wait_witness :
    doRequest sampleClient (cancelAtWorld 1)
      = .err (.ctxError (cancelAtWorld 1).ctxErrMsg) 2 ∧
    2 < sampleClient.retry.maxRetries + 1 :=
  doRequest_cancelled_during_wait sampleClient (cancelAtWorld 1) 1
    (by decide)
    (fun j hj => ⟨resp503, rfl, by decide⟩)
    (fun j hj => by
      simp only [cancelAtWorld, beq_eq_false_iff_ne, ne_eq]
      omega)
    (by decide)

/-- C5 counterexample: the claim as stated fails on the code.  A 429
response with Retry-After 9223372037 parses as a positive integer, but
`time.Duration(seconds) * time.Second` wraps int64, so the code returns
the wrapped negative delay -9223372036709551616ns instead of
min(N seconds, max delay). -/
theorem retryDelay_retry_after_overflow :
    retryDelay defaultRetryConfig 0
      (some { statusCode := 429
              headers := [("Retry-After", "9223372037")]
              body := .malformed }) 0
      = -9223372036709551616 ∧
    retryDelay defaultRetryConfig 0
      (some { statusCode := 429
              headers := [("Retry-After", "9223372037")]
              body := .malformed }) 0
      ≠ min ((9223372037 : Int) * second) defaultRetryConfig.maxDelay := by
  refine ⟨by decide, by decide⟩

/-- C5 (amended): for every 429 response whose Retry-After header parses
as a positive integer n with n seconds representable in int64 nanoseconds
(n * 10^9 ≤ 2^63 - 1, i.e. n ≤ 9223372036), `retryDelay` returns exactly
min(n seconds, configured max delay), independently of the jitter draw.
Beyond that bound the int64 product wraps (see the counterexample). -/
theorem retryDelay_honors_retry_after (cfg : RetryConfig) (attempt : Nat)
    (r : Response) (jitter : Int) (n : Int)
    (h429 : r.statusCode = 429)
    (hra : atoi (headerGet r.headers "Retry-After") = some n)
    (hpos : 0 < n)
    (hb : n * second ≤ 2 ^ 63 - 1) :
    retryDelay cfg attempt (some r) jitter = min (n * second) cfg.maxDelay := by
  have hne : (headerGet r.headers "Retry-After" != "") = true := by
    rw [bne_iff_ne]
    intro h
    rw [h] at hra
    simp [atoi] at hra
  have h0 : (0 : Int) ≤ n * second := by
    simp only [second]
    omega
  unfold retryDelay
  simp only [h429, hne, hra, beq_self_eq_true, if_true, if_pos hpos]
  rw [wrap64_eq_self (n * second) h0 hb]
  simp only [second]
  rw [min_def]
  split_ifs <;> omega

/-- C5 witness: a concrete 429 response with Retry-After 15 under the
default configuration waits exactly 15 seconds. -/
theorem retryDelay_honors_retry_after_witness :
    retryDelay defaultRetryConfig 0
      (some { statusCode := 429
              headers := [("Retry-After", "15")]
              body := .malformed }) 999
      = min ((15 : Int) * second) defaultRetryConfig.maxDelay :=
  retryDelay_honors_retry_after defaultRetryConfig 0
    { statusCode := 429
      headers := [("Retry-After", "15")]
      body := .malformed } 999 15 rfl (by decide) (by decide) (by decide)

/-- C6: for every terminal non-2xx response, `checkResponse` returns the
error kind determined solely by the status code (404 not-found, 409
conflict, 401 unauthorized, 403 forbidden, 400/422 validation carrying the
parsed field map, any other non-2xx the generic API error), and each kind
predicate (IsNotFound, IsConflict, IsUnauthorized, IsForbidden) returns
true on the resulting error exactly when the originating status was the
corresponding one. -/
theorem checkResponse_kind_classification (r : Response)
    (h : ¬(200 ≤ r.statusCode ∧ r.statusCode < 300)) :
    ∃ e, checkResponse r = some e ∧
      GoError.kind e = specKindForStatus r.statusCode ∧
      (IsNotFound e = true ↔ r.statusCode = 404) ∧
      (IsConflict e = true ↔ r.statusCode = 409) ∧
      (IsUnauthorized e = true ↔ r.statusCode = 401) ∧
      (IsForbidden e = true ↔ r.statusCode = 403) ∧
      (r.statusCode = 400 ∨ r.statusCode = 422 →
        ∃ a, e = .validationError a r.body.fieldsValue) :=
  checkResponse_classify r h

/-- C6 witness: a concrete 404 response. -/
theorem checkResponse_kind_classification_witness :
    ∃ e, checkResponse { statusCode := 404, headers := [], body := .malformed }
        = some e ∧
      GoError.kind e = specKindForStatus 404 ∧
      (IsNotFound e = true ↔ (404 : Nat) = 404) ∧
      (IsConflict e = true ↔ (404 : Nat) = 409) ∧
      (IsUnauthorized e = true ↔ (404 : Nat) = 401) ∧
      (IsForbidden e = true ↔ (404 : Nat) = 403) ∧
      ((404 : Nat) = 400 ∨ (404 : Nat) = 422 →
        ∃ a, e = .validationError a (ErrBody.malformed).fieldsValue) :=
  checkResponse_kind_classification
    { statusCode := 404, headers := [], body := .malformed } (by decide)

/-- C7: the message of every classified non-2xx error follows the
precedence body message, then body error, then standard HTTP status text;
an unparseable body falls back to the status text; and the spec's 422
example body (error validation_error, message name is required, one field
mapping name to required) yields a validation error with message
"name is required" and that field map. -/
theorem checkResponse_message_precedence (r : Response)
    (h : ¬(200 ≤ r.statusCode ∧ r.statusCode < 300)) :
    (∃ e a, checkResponse r = some e ∧ GoError.apiErr e = some a ∧
      a.message = specErrorMessage r.body r.statusCode ∧
      (r.body = .malformed → a.message = statusText r.statusCode)) ∧
    checkResponse resp422Example
      = some (.validationError
          { statusCode := 422, message := "name is required", requestID := "" }
          (some [("name", "required")])) := by
  obtain ⟨e, he, ha⟩ := checkResponse_apiErr_eq r h
  exact ⟨⟨e, _, he, ha, rfl, fun hb => by rw [hb]; rfl⟩, by decide⟩

/-- C7 witness: instantiated at the spec's 422 example response. -/
theorem checkResponse_message_precedence_witness :
    (∃ e a, checkResponse resp422Example = some e ∧
      GoError.apiErr e = some a ∧
      a.message = specErrorMessage resp422Example.body resp422Example.statusCode ∧
      (resp422Example.body = .malformed →
        a.message = statusText resp422Example.statusCode)) ∧
    checkResponse resp422Example
      = some (.validationError
          { statusCode := 422, message := "name is required", requestID := "" }
          (some [("name", "required")])) :=
  checkResponse_message_precedence resp422Example (by decide)

/-- C9: `NewClient` stores the endpoint with trailing slashes removed,
every request URL is that normalized base concatenated with the path,
normalization is idempotent, and the spec's example endpoint normalizes as
stated. -/
theorem newClient_normalizes_base_url (cfg : ClientConfig) (c : Client)
    (path s : String) (hc : NewClient cfg = .ok c) :
    c.baseURL = trimRightSlash cfg.endpoint ∧
    requestURL c path = trimRightSlash cfg.endpoint ++ path ∧
    trimRightSlash (trimRightSlash s) = trimRightSlash s ∧
    trimRightSlash "https://api.example.com/" = "https://api.example.com" := by
  have hbase : c.baseURL = trimRightSlash cfg.endpoint := by
    unfold NewClient at hc
    split_ifs at hc
    all_goals (replace hc := Except.ok.inj hc; subst hc; rfl)
  refine ⟨hbase, by rw [requestURL, hbase], ?_, by decide⟩
  simp [trimRightSlash, dropWhile_dropWhile]

/-- C9 witness: the spec's example configuration. -/
theorem newClient_normalizes_base_url_witness :
    ∃ c, NewClient
        { endpoint := "https://api.example.com/"
          apiToken := "tok"
          userAgent := ""
          timeout := 0
          maxRetries := 0 } = .ok c ∧
      c.baseURL = trimRightSlash "https://api.example.com/" ∧
      requestURL c "/api/v1/spaces"
        = trimRightSlash "https://api.example.com/" ++ "/api/v1/spaces" := by
  obtain ⟨c, hc⟩ : ∃ c, NewClient
      { endpoint := "https://api.example.com/"
        apiToken := "tok"
        userAgent := ""
        timeout := 0
        maxRetries := 0 } = .ok c := ⟨_, rfl⟩
  obtain ⟨h1, h2, -, -⟩ := newClient_normalizes_base_url _ c "/api/v1/spaces"
    "x" hc
  exact ⟨c, hc, h1, h2⟩

/-- C10: a `ClientConfig` whose MaxRetries is zero or negative yields a
client with the default retry budget of 3; only a strictly positive
MaxRetries overrides it. -/
theorem newClient_retry_budget (cfg : ClientConfig)
    (he : cfg.endpoint ≠ "") (ht : cfg.apiToken ≠ "") :
    (cfg.maxRetries ≤ 0 →
      ∃ c, NewClient cfg = .ok c ∧ c.retry.maxRetries = 3) ∧
    (0 < cfg.maxRetries →
      ∃ c, NewClient cfg = .ok c ∧ c.retry.maxRetries = cfg.maxRetries.toNat) := by
  have he2 : (cfg.endpoint == "") = false := by simpa using he
  have ht2 : (cfg.apiToken == "") = false := by simpa using ht
  constructor
  · intro hle
    have hnpos : ¬(cfg.maxRetries > 0) := by omega
    refine ⟨{ baseURL := trimRightSlash cfg.endpoint
              apiToken := cfg.apiToken
              userAgent := if cfg.userAgent == "" then defaultUserAgent
                else cfg.userAgent
              timeout := if cfg.timeout == 0 then defaultTimeout
                else cfg.timeout
              retry := defaultRetryConfig }, ?_, rfl⟩
    unfold NewClient
    simp only [he2, ht2, Bool.false_eq_true, if_false, if_neg hnpos]
  · intro hpos
    refine ⟨{ baseURL := trimRightSlash cfg.endpoint
              apiToken := cfg.apiToken
              userAgent := if cfg.userAgent == "" then defaultUserAgent
                else cfg.userAgent
              timeout := if cfg.timeout == 0 then defaultTimeout
                else cfg.timeout
              retry := { defaultRetryConfig with
                maxRetries := cfg.maxRetries.toNat } }, ?_, rfl⟩
    unfold NewClient
    simp only [he2, ht2, Bool.false_eq_true, if_false, if_pos hpos]

/-- C10 witness: MaxRetries 0 and -5 give budget 3; MaxRetries 7 gives 7. -/
theorem newClient_retry_budget_witness :
    (∃ c, NewClient
        { endpoint := "https://e", apiToken := "t", userAgent := ""
          timeout := 0, maxRetries := 0 } = .ok c ∧
      c.retry.maxRetries = 3) ∧
    (∃ c, NewClient
        { endpoint := "https://e", apiToken := "t", userAgent := ""
          timeout := 0, maxRetries := -5 } = .ok c ∧
      c.retry.maxRetries = 3) ∧
    (∃ c, NewClient
        { endpoint := "https://e", apiToken := "t", userAgent := ""
          timeout := 0, maxRetries := 7 } = .ok c ∧
      c.retry.maxRetries = (7 : Int).toNat) :=
  ⟨(newClient_retry_budget
      { endpoint := "https://e", apiToken := "t", userAgent := ""
        timeout := 0, maxRetries := 0 }
      (by decide) (by decide)).1 (by decide),
   (newClient_retry_budget
      { endpoint := "https://e", apiToken := "t", userAgent := ""
        timeout := 0, maxRetries := -5 }
      (by decide) (by decide)).1 (by decide),
   (newClient_retry_budget
      { endpoint := "https://e", apiToken := "t", userAgent := ""
        timeout := 0, maxRetries := 7 }
      (by decide) (by decide)).2 (by decide)⟩


end Zenfra
